import Mathlib

/-!
Verification of the magnus tennis-simulator physics core.

The repository ships two snapshots of `src/utils/physicsLogic.ts`:
the file at the named path (here embedded with the source's own names,
`calculateImpact`, `calculateMagnusForce`, `predictTrajectory`) and a
later, enhanced snapshot of the same module (embedded with a `V2`
suffix: `calculateImpactV2`, `calculateMagnusForceV2`,
`predictTrajectoryV2`).  JavaScript numbers are modelled as real
numbers; `THREE.Vector3` values are modelled by `Vec3`, and each
in-place mutation of the source is made explicit at its call site.
-/

noncomputable section

/-- Value model of `THREE.Vector3`: three real components. -/
structure Vec3 where
  x : ℝ
  y : ℝ
  z : ℝ

/-- `THREE.Vector3.addVectors` / `.add`: componentwise sum. -/
def Vec3.add (a b : Vec3) : Vec3 :=
  ⟨a.x + b.x, a.y + b.y, a.z + b.z⟩

/-- `THREE.Vector3.multiplyScalar`: componentwise scaling. -/
def Vec3.multiplyScalar (a : Vec3) (s : ℝ) : Vec3 :=
  ⟨a.x * s, a.y * s, a.z * s⟩

/-- `THREE.Vector3.divideScalar`: componentwise division. -/
def Vec3.divideScalar (a : Vec3) (s : ℝ) : Vec3 :=
  ⟨a.x / s, a.y / s, a.z / s⟩

/-- `THREE.Vector3.crossVectors`: the right-handed cross product. -/
def Vec3.cross (a b : Vec3) : Vec3 :=
  ⟨a.y * b.z - a.z * b.y, a.z * b.x - a.x * b.z, a.x * b.y - a.y * b.x⟩

/-- The zero vector `(0, 0, 0)`. -/
def Vec3.zero : Vec3 := ⟨0, 0, 0⟩

/-- `THREE.MathUtils.degToRad`. -/
def degToRad (d : ℝ) : ℝ := d * Real.pi / 180

/-- Constant `AIR_DENSITY` (kg/m^3) of `physicsLogic.ts`. -/
def AIR_DENSITY : ℝ := 1.225

/-- Constant `BALL_RADIUS` (m) of `physicsLogic.ts`. -/
def BALL_RADIUS : ℝ := 0.033

/-- Constant `BALL_AREA = Math.PI * BALL_RADIUS * BALL_RADIUS` of `physicsLogic.ts`. -/
def BALL_AREA : ℝ := Real.pi * BALL_RADIUS * BALL_RADIUS

/-- Constant `BALL_MASS` (kg) of `physicsLogic.ts`. -/
def BALL_MASS : ℝ := 0.057

/-- Result record returned by `calculateImpact`. -/
structure ImpactResult where
  velocity : Vec3
  rpm : ℝ
  energyTransferEfficiency : ℝ

/-- `calculateImpact` of `src/utils/physicsLogic.ts` (named-path snapshot,
spin-generation constant 500). -/
def calculateImpact (racketSpeed racketAngle swingPathAngle impactLocation : ℝ) :
    ImpactResult :=
  let baseCOR : ℝ := 0.85
  let cor := baseCOR * (1 - impactLocation * 0.5)
  let rAngleRad := degToRad racketAngle
  let sPathRad := degToRad swingPathAngle
  let effectiveSpeed := racketSpeed * (1 + cor)
  let launchSpeed := effectiveSpeed * Real.cos (rAngleRad - sPathRad)
  let launchAngleRad := sPathRad + (rAngleRad - sPathRad) * 0.4
  let tangentialSpeed := racketSpeed * Real.sin (rAngleRad - sPathRad)
  let spinFactor : ℝ := 500
  let rpm := tangentialSpeed * spinFactor * (1 - impactLocation * 0.3)
  let vy := launchSpeed * Real.sin launchAngleRad
  let vz := -launchSpeed * Real.cos launchAngleRad
  ⟨⟨0, vy, vz⟩, rpm, cor * 100⟩

/-- `calculateImpact` of the later snapshot of `physicsLogic.ts`
(spin-generation constant 600); otherwise identical to `calculateImpact`. -/
def calculateImpactV2 (racketSpeed racketAngle swingPathAngle impactLocation : ℝ) :
    ImpactResult :=
  let baseCOR : ℝ := 0.85
  let cor := baseCOR * (1 - impactLocation * 0.5)
  let rAngleRad := degToRad racketAngle
  let sPathRad := degToRad swingPathAngle
  let effectiveSpeed := racketSpeed * (1 + cor)
  let launchSpeed := effectiveSpeed * Real.cos (rAngleRad - sPathRad)
  let launchAngleRad := sPathRad + (rAngleRad - sPathRad) * 0.4
  let tangentialSpeed := racketSpeed * Real.sin (rAngleRad - sPathRad)
  let spinFactor : ℝ := 600
  let rpm := tangentialSpeed * spinFactor * (1 - impactLocation * 0.3)
  let vy := launchSpeed * Real.sin launchAngleRad
  let vz := -launchSpeed * Real.cos launchAngleRad
  ⟨⟨0, vy, vz⟩, rpm, cor * 100⟩

/-- `calculateMagnusForce` of `src/utils/physicsLogic.ts` (named-path
snapshot, lift coefficient 0.0004). -/
def calculateMagnusForce (velocity angularVelocity : Vec3) : Vec3 :=
  let liftCoefficient : ℝ := 0.0004
  let magnusDirection := Vec3.cross angularVelocity velocity
  magnusDirection.multiplyScalar (liftCoefficient * AIR_DENSITY * BALL_AREA)

/-- `calculateMagnusForce` of the later snapshot (lift coefficient 0.0006). -/
def calculateMagnusForceV2 (velocity angularVelocity : Vec3) : Vec3 :=
  let liftCoefficient : ℝ := 0.0006
  let magnusDirection := Vec3.cross angularVelocity velocity
  magnusDirection.multiplyScalar (liftCoefficient * AIR_DENSITY * BALL_AREA)

/-- C4: for every `offCenterFactor` in `[0,1]` (and any speed and angles),
`energyTransferEfficiency` equals `cor * 100` with
`cor = 0.85 * (1 - offCenterFactor * 0.5)`, in both snapshots of
`calculateImpact`, and it is monotonically decreasing in `offCenterFactor`. -/
theorem impact_efficiency_eq_cor_and_antitone
    (speed rAngle sAngle o1 o2 : ℝ)
    (h0 : 0 ≤ o1) (h12 : o1 ≤ o2) (h1 : o2 ≤ 1) :
    (calculateImpact speed rAngle sAngle o1).energyTransferEfficiency
        = 0.85 * (1 - o1 * 0.5) * 100
    ∧ (calculateImpactV2 speed rAngle sAngle o1).energyTransferEfficiency
        = 0.85 * (1 - o1 * 0.5) * 100
    ∧ (calculateImpact speed rAngle sAngle o2).energyTransferEfficiency
        ≤ (calculateImpact speed rAngle sAngle o1).energyTransferEfficiency := by
  refine ⟨rfl, rfl, ?_⟩
  show 0.85 * (1 - o2 * 0.5) * 100 ≤ 0.85 * (1 - o1 * 0.5) * 100
  nlinarith

/-- Witness for `impact_efficiency_eq_cor_and_antitone` at
`speed = 1`, angles `0`, `o1 = 0`, `o2 = 1`. -/
theorem impact_efficiency_eq_cor_and_antitone_witness :
    (0:ℝ) ≤ 0 ∧ (0:ℝ) ≤ 1 ∧ (1:ℝ) ≤ 1 ∧
    ((calculateImpact 1 0 0 0).energyTransferEfficiency = 0.85 * (1 - 0 * 0.5) * 100
     ∧ (calculateImpactV2 1 0 0 0).energyTransferEfficiency = 0.85 * (1 - 0 * 0.5) * 100
     ∧ (calculateImpact 1 0 0 1).energyTransferEfficiency
         ≤ (calculateImpact 1 0 0 0).energyTransferEfficiency) :=
  ⟨by norm_num, by norm_num, by norm_num,
    impact_efficiency_eq_cor_and_antitone 1 0 0 0 1 (by norm_num) (by norm_num) (by norm_num)⟩

/-- C5: when the face angle equals the swing-path angle exactly, the spin
rate returned by `calculateImpact` is exactly zero, for any speed and any
off-center factor, in both snapshots. -/
theorem impact_flat_shot_zero_spin (speed angle impactLocation : ℝ) :
    (calculateImpact speed angle angle impactLocation).rpm = 0
    ∧ (calculateImpactV2 speed angle angle impactLocation).rpm = 0 := by
  constructor <;>
  · show speed * Real.sin (degToRad angle - degToRad angle) * _ * _ = 0
    rw [sub_self, Real.sin_zero]
    ring

/-- C6: `calculateMagnusForce` applied to the zero velocity vector returns
exactly the zero vector, for every angular velocity, in both snapshots. -/
theorem magnus_force_zero_velocity (angularVelocity : Vec3) :
    calculateMagnusForce Vec3.zero angularVelocity = Vec3.zero
    ∧ calculateMagnusForceV2 Vec3.zero angularVelocity = Vec3.zero := by
  constructor <;>
  · simp only [calculateMagnusForce, calculateMagnusForceV2, Vec3.cross, Vec3.zero,
      Vec3.multiplyScalar]
    norm_num

/-- C8 counterexample: `calculateImpact` performs no clamping of the
off-center factor.  At `offCenterFactor = -1` the efficiency is `127.5`,
not the `85` obtained at the nearest in-range value `0`, and it exceeds
the claimed `[0, 100]` range. -/
theorem impact_no_clamp_counterexample :
    (calculateImpact 1 0 0 (-1)).energyTransferEfficiency = 127.5
    ∧ (calculateImpact 1 0 0 0).energyTransferEfficiency = 85
    ∧ ¬ (calculateImpact 1 0 0 (-1)).energyTransferEfficiency
        = (calculateImpact 1 0 0 0).energyTransferEfficiency
    ∧ ¬ (calculateImpact 1 0 0 (-1)).energyTransferEfficiency ≤ 100 := by
  refine ⟨by norm_num [calculateImpact], by norm_num [calculateImpact], ?_, ?_⟩ <;>
    norm_num [calculateImpact]

/-- C8 amended: `calculateImpact` applies no clamping to the off-center
factor; for every input (in range or not) the efficiency is the raw linear
expression `85 - 42.5 * offCenterFactor`, in both snapshots. -/
theorem impact_efficiency_linear_no_clamp (speed rAngle sAngle o : ℝ) :
    (calculateImpact speed rAngle sAngle o).energyTransferEfficiency = 85 - 42.5 * o
    ∧ (calculateImpactV2 speed rAngle sAngle o).energyTransferEfficiency = 85 - 42.5 * o := by
  constructor <;>
  · show 0.85 * (1 - o * 0.5) * 100 = 85 - 42.5 * o
    ring

/-- C10: the exit velocity returned by `calculateImpact` always has lateral
component exactly `0` — the launch velocity lies in the vertical y–z plane
and no horizontal-angle rotation is performed — in both snapshots. -/
theorem impact_velocity_x_zero (speed rAngle sAngle impactLocation : ℝ) :
    (calculateImpact speed rAngle sAngle impactLocation).velocity.x = 0
    ∧ (calculateImpactV2 speed rAngle sAngle impactLocation).velocity.x = 0 :=
  ⟨rfl, rfl⟩

/-- Integrator state of the named-path `predictTrajectory`: the collected
points, current position, current velocity, and the `gravity` vector, which
that snapshot mutates in place via `multiplyScalar` on every step. -/
structure TrajStateV1 where
  points : List Vec3
  pos : Vec3
  vel : Vec3
  gravity : Vec3

/-- One iteration of the named-path `predictTrajectory` loop body: push the
current position, compute Magnus force, scale the (stored, previously
scaled) gravity vector by `BALL_MASS` in place, form the acceleration, and
update velocity then position. -/
def stepV1 (angVel : Vec3) (dt : ℝ) (s : TrajStateV1) : TrajStateV1 :=
  let points := s.points ++ [s.pos]
  let magnus := calculateMagnusForce s.vel angVel
  let gravity := s.gravity.multiplyScalar BALL_MASS
  let totalForce := gravity.add magnus
  let acceleration := totalForce.divideScalar BALL_MASS
  let vel := s.vel.add (acceleration.multiplyScalar dt)
  let pos := s.pos.add (vel.multiplyScalar dt)
  ⟨points, pos, vel, gravity⟩

/-- The named-path `predictTrajectory` loop: run up to `n` iterations,
stopping early when the updated position's vertical component drops below
`BALL_RADIUS`. -/
def predictLoopV1 (angVel : Vec3) (dt : ℝ) : Nat → TrajStateV1 → TrajStateV1
  | 0, s => s
  | n + 1, s =>
      let t := stepV1 angVel dt s
      if t.pos.y < BALL_RADIUS then t else predictLoopV1 angVel dt n t

/-- `predictTrajectory` of `src/utils/physicsLogic.ts` (named-path
snapshot): Euler integration from the start state, gravity vector
initialised to `(0, -9.81, 0)`. -/
def predictTrajectory (startPos startVel startAngVel : Vec3) (dt : ℝ) (steps : Nat) :
    List Vec3 :=
  (predictLoopV1 startAngVel dt steps ⟨[], startPos, startVel, ⟨0, -9.81, 0⟩⟩).points

/-- One Euler step of the later snapshot's `predictTrajectory`: Magnus force
from the current velocity and the fixed angular velocity, plus the constant
gravitational force `(0, -9.81, 0) * BALL_MASS` (that snapshot clones the
gravity vector before scaling), divided by `BALL_MASS`; velocity is updated
first and the just-updated velocity updates the position.  Returns the new
position and velocity. -/
def eulerStepV2 (angVel : Vec3) (dt : ℝ) (pos vel : Vec3) : Vec3 × Vec3 :=
  let magnus := calculateMagnusForceV2 vel angVel
  let totalForce := (Vec3.multiplyScalar ⟨0, -9.81, 0⟩ BALL_MASS).add magnus
  let acceleration := totalForce.divideScalar BALL_MASS
  let vel2 := vel.add (acceleration.multiplyScalar dt)
  let pos2 := pos.add (vel2.multiplyScalar dt)
  (pos2, vel2)

/-- The later snapshot's `predictTrajectory` loop: each iteration pushes the
current position and advances by one Euler step; if the new vertical
position is below `BALL_RADIUS` the final grounded point is appended and
the loop stops; otherwise, if the new position is out of the court bounds
(`|z| > 40` or `|x| > 20`), the loop stops without an extra point. -/
def predictLoopV2 (angVel : Vec3) (dt : ℝ) : Nat → List Vec3 → Vec3 → Vec3 → List Vec3
  | 0, points, _, _ => points
  | n + 1, points, pos, vel =>
      let acc := points ++ [pos]
      let st := eulerStepV2 angVel dt pos vel
      if st.1.y < BALL_RADIUS then acc ++ [st.1]
      else if 40 < |st.1.z| ∨ 20 < |st.1.x| then acc
      else predictLoopV2 angVel dt n acc st.1 st.2

/-- `predictTrajectory` of the later snapshot of `physicsLogic.ts`. -/
def predictTrajectoryV2 (startPos startVel startAngVel : Vec3) (dt : ℝ) (steps : Nat) :
    List Vec3 :=
  predictLoopV2 startAngVel dt steps [] startPos startVel

/-- Termination causes named by the specification for a single predicted
step. -/
inductive TermCond where
  | ground
  | outOfBounds

/-- Specification-side termination check, written from the spec's words:
conditions are tested in priority order — first the grounded condition
(vertical component below the ball radius), then the out-of-bounds
condition. -/
def specTermCheck (p : Vec3) : Option TermCond :=
  if p.y < BALL_RADIUS then some TermCond.ground
  else if 40 < |p.z| ∨ 20 < |p.x| then some TermCond.outOfBounds
  else none

/-- Specification-side trajectory, written from the spec's words: at each
step the current sample is recorded and the state advanced by one Euler
step; if the grounded condition fires, the final grounded point is appended
and the run stops; if the bounds condition fires, the run stops without an
extra point; when the step budget is exhausted the run stops. -/
def specTerminationTrajectory (angVel : Vec3) (dt : ℝ) : Nat → Vec3 → Vec3 → List Vec3
  | 0, _, _ => []
  | n + 1, pos, vel =>
      let st := eulerStepV2 angVel dt pos vel
      match specTermCheck st.1 with
      | some TermCond.ground => [pos, st.1]
      | some TermCond.outOfBounds => [pos]
      | none => pos :: specTerminationTrajectory angVel dt n st.1 st.2

/-- The accumulator-style source loop produces exactly the accumulated
prefix followed by the specification-side trajectory. -/
theorem predictLoopV2_eq_spec (angVel : Vec3) (dt : ℝ) :
    ∀ (n : Nat) (points : List Vec3) (pos vel : Vec3),
      predictLoopV2 angVel dt n points pos vel
        = points ++ specTerminationTrajectory angVel dt n pos vel := by
  intro n
  induction n with
  | zero => intro points pos vel; simp [predictLoopV2, specTerminationTrajectory]
  | succ n ih =>
      intro points pos vel
      by_cases hg : (eulerStepV2 angVel dt pos vel).1.y < BALL_RADIUS
      · simp [predictLoopV2, specTerminationTrajectory, specTermCheck, hg]
      · by_cases hb : 40 < |(eulerStepV2 angVel dt pos vel).1.z|
            ∨ 20 < |(eulerStepV2 angVel dt pos vel).1.x|
        · simp [predictLoopV2, specTerminationTrajectory, specTermCheck, hg, hb]
        · simp only [predictLoopV2, specTerminationTrajectory, specTermCheck,
            if_neg hg, if_neg hb, ih]
          simp

/-- C2: the later snapshot's `predictTrajectory` checks its termination
conditions in the spec's priority order on every step — grounded first
(appending the final grounded point), then out-of-bounds (no extra point),
then the step cap — formalised as equality with the trajectory function
written from the spec's words. -/
theorem predict_termination_priority_order
    (startPos startVel startAngVel : Vec3) (dt : ℝ) (steps : Nat) :
    predictTrajectoryV2 startPos startVel startAngVel dt steps
      = specTerminationTrajectory startAngVel dt steps startPos startVel := by
  simpa using predictLoopV2_eq_spec startAngVel dt steps [] startPos startVel

/-- The spec-side trajectory has at most `n + 1` samples. -/
theorem specTerminationTrajectory_length_le (angVel : Vec3) (dt : ℝ) :
    ∀ (n : Nat) (pos vel : Vec3),
      (specTerminationTrajectory angVel dt n pos vel).length ≤ n + 1 := by
  intro n
  induction n with
  | zero => intro pos vel; simp [specTerminationTrajectory]
  | succ n ih =>
      intro pos vel
      simp only [specTerminationTrajectory]
      rcases h : specTermCheck (eulerStepV2 angVel dt pos vel).1 with _ | c
      · simpa using Nat.succ_le_succ (ih _ _)
      · cases c <;> simp

/-- When at least one step is allowed, the spec-side trajectory starts with
the start position. -/
theorem specTerminationTrajectory_head (angVel : Vec3) (dt : ℝ)
    (n : Nat) (pos vel : Vec3) (h : 1 ≤ n) :
    (specTerminationTrajectory angVel dt n pos vel).head? = some pos := by
  obtain ⟨m, rfl⟩ : ∃ m, n = m + 1 := ⟨n - 1, by omega⟩
  simp only [specTerminationTrajectory]
  rcases specTermCheck (eulerStepV2 angVel dt pos vel).1 with _ | c
  · simp
  · cases c <;> simp

/-- The named-path loop only appends points. -/
theorem predictLoopV1_points_length (angVel : Vec3) (dt : ℝ) :
    ∀ (n : Nat) (s : TrajStateV1),
      (predictLoopV1 angVel dt n s).points.length ≤ s.points.length + n := by
  intro n
  induction n with
  | zero => intro s; simp [predictLoopV1]
  | succ n ih =>
      intro s
      simp only [predictLoopV1]
      have hlen : (stepV1 angVel dt s).points.length = s.points.length + 1 := by
        simp [stepV1]
      by_cases hg : (stepV1 angVel dt s).pos.y < BALL_RADIUS
      · rw [if_pos hg]
        omega
      · rw [if_neg hg]
        have := ih (stepV1 angVel dt s)
        omega

/-- The named-path loop preserves the first collected point. -/
theorem predictLoopV1_points_head (angVel : Vec3) (dt : ℝ) :
    ∀ (n : Nat) (s : TrajStateV1) (a : Vec3),
      s.points.head? = some a →
      (predictLoopV1 angVel dt n s).points.head? = some a := by
  intro n
  induction n with
  | zero => intro s a h; simpa [predictLoopV1] using h
  | succ n ih =>
      intro s a h
      rcases hp : s.points with _ | ⟨b, t⟩
      · simp [hp] at h
      · have hb : b = a := by simpa [hp] using h
        subst hb
        have hstep : (stepV1 angVel dt s).points.head? = some b := by
          simp [stepV1, hp]
        simp only [predictLoopV1]
        by_cases hg : (stepV1 angVel dt s).pos.y < BALL_RADIUS
        · simpa [if_pos hg] using hstep
        · simpa [if_neg hg] using ih (stepV1 angVel dt s) b hstep

/-- C3 amended: provided at least one step is allowed (`1 ≤ maxSteps`), both
snapshots of `predictTrajectory` return a trajectory whose first point is
exactly the start position (so the start point is always present) and whose
length is at most `maxSteps + 1`; with `maxSteps = 0` the loop body never
runs and the returned trajectory is empty. -/
theorem predict_start_point_and_length
    (startPos startVel startAngVel : Vec3) (dt : ℝ) (steps : Nat) (h : 1 ≤ steps) :
    (predictTrajectory startPos startVel startAngVel dt steps).head? = some startPos
    ∧ (predictTrajectory startPos startVel startAngVel dt steps).length ≤ steps + 1
    ∧ (predictTrajectoryV2 startPos startVel startAngVel dt steps).head? = some startPos
    ∧ (predictTrajectoryV2 startPos startVel startAngVel dt steps).length ≤ steps + 1 := by
  refine ⟨?_, ?_, ?_, ?_⟩
  · obtain ⟨m, rfl⟩ : ∃ m, steps = m + 1 := ⟨steps - 1, by omega⟩
    show (predictLoopV1 startAngVel dt (m + 1) ⟨[], startPos, startVel, ⟨0, -9.81, 0⟩⟩).points.head?
      = some startPos
    simp only [predictLoopV1]
    set s0 : TrajStateV1 := ⟨[], startPos, startVel, ⟨0, -9.81, 0⟩⟩ with hs0
    have hstep : (stepV1 startAngVel dt s0).points.head? = some startPos := by
      simp [stepV1, hs0]
    by_cases hg : (stepV1 startAngVel dt s0).pos.y < BALL_RADIUS
    · simpa [if_pos hg] using hstep
    · simpa [if_neg hg] using
        predictLoopV1_points_head startAngVel dt m (stepV1 startAngVel dt s0) startPos hstep
  · have := predictLoopV1_points_length startAngVel dt steps
      ⟨[], startPos, startVel, ⟨0, -9.81, 0⟩⟩
    simp only [List.length_nil] at this
    calc (predictTrajectory startPos startVel startAngVel dt steps).length
        ≤ 0 + steps := this
      _ ≤ steps + 1 := by omega
  · rw [show predictTrajectoryV2 startPos startVel startAngVel dt steps
        = specTerminationTrajectory startAngVel dt steps startPos startVel by
          simpa using predictLoopV2_eq_spec startAngVel dt steps [] startPos startVel]
    exact specTerminationTrajectory_head startAngVel dt steps startPos startVel h
  · rw [show predictTrajectoryV2 startPos startVel startAngVel dt steps
        = specTerminationTrajectory startAngVel dt steps startPos startVel by
          simpa using predictLoopV2_eq_spec startAngVel dt steps [] startPos startVel]
    exact specTerminationTrajectory_length_le startAngVel dt steps startPos startVel

/-- Witness for `predict_start_point_and_length` at a concrete call with
one allowed step. -/
theorem predict_start_point_and_length_witness :
    1 ≤ 1 ∧
    ((predictTrajectory ⟨0, 1, 0⟩ ⟨0, 0, 0⟩ ⟨0, 0, 0⟩ 1 1).head? = some ⟨0, 1, 0⟩
     ∧ (predictTrajectory ⟨0, 1, 0⟩ ⟨0, 0, 0⟩ ⟨0, 0, 0⟩ 1 1).length ≤ 1 + 1
     ∧ (predictTrajectoryV2 ⟨0, 1, 0⟩ ⟨0, 0, 0⟩ ⟨0, 0, 0⟩ 1 1).head? = some ⟨0, 1, 0⟩
     ∧ (predictTrajectoryV2 ⟨0, 1, 0⟩ ⟨0, 0, 0⟩ ⟨0, 0, 0⟩ 1 1).length ≤ 1 + 1) :=
  ⟨by decide,
    predict_start_point_and_length ⟨0, 1, 0⟩ ⟨0, 0, 0⟩ ⟨0, 0, 0⟩ 1 1 (by decide)⟩

/-- C3 counterexample: called with `maxSteps = 0`, both snapshots of
`predictTrajectory` return the empty trajectory, which does not contain the
start point. -/
theorem predict_zero_steps_counterexample :
    predictTrajectory ⟨0, 1, 0⟩ ⟨0, 0, 0⟩ ⟨0, 0, 0⟩ 0.016 0 = []
    ∧ predictTrajectoryV2 ⟨0, 1, 0⟩ ⟨0, 0, 0⟩ ⟨0, 0, 0⟩ 0.02 0 = []
    ∧ ¬ (⟨0, 1, 0⟩ : Vec3) ∈ predictTrajectoryV2 ⟨0, 1, 0⟩ ⟨0, 0, 0⟩ ⟨0, 0, 0⟩ 0.02 0 := by
  refine ⟨rfl, rfl, ?_⟩
  rw [show predictTrajectoryV2 ⟨0, 1, 0⟩ ⟨0, 0, 0⟩ ⟨0, 0, 0⟩ 0.02 0 = [] from rfl]
  simp

/-- C1: in the named-path `predictTrajectory`, the gravitational force is
not the same on every step.  The loop body scales the stored gravity vector
in place by `BALL_MASS` each iteration, so from a rest start with zero spin
and `dt = 1` the first step adds the correct `-9.81` to the vertical
velocity but the second step adds only `-9.81 * 0.057`: after two steps the
velocity is `-(9.81 + 9.81 * 0.057)`, not the `-(9.81 + 9.81)` that a
constant gravitational force `BALL_MASS * g` would give, and the stored
gravity vector has been shrunk to `-9.81 * 0.057 * 0.057`. -/
theorem predict_gravity_mutated_counterexample :
    (predictLoopV1 Vec3.zero 1 2 ⟨[], ⟨0, 100, 0⟩, Vec3.zero, ⟨0, -9.81, 0⟩⟩).vel.y
      = -(9.81 + 9.81 * 0.057)
    ∧ (predictLoopV1 Vec3.zero 1 2 ⟨[], ⟨0, 100, 0⟩, Vec3.zero, ⟨0, -9.81, 0⟩⟩).gravity.y
      = -(9.81 * 0.057 * 0.057)
    ∧ ¬ (-(9.81 + 9.81 * 0.057) : ℝ) = -(9.81 + 9.81) := by
  have h1 : stepV1 Vec3.zero 1 ⟨[], ⟨0, 100, 0⟩, Vec3.zero, ⟨0, -9.81, 0⟩⟩
      = ⟨[⟨0, 100, 0⟩], ⟨0, 100 - 9.81, 0⟩, ⟨0, -9.81, 0⟩, ⟨0, -9.81 * 0.057, 0⟩⟩ := by
    simp only [stepV1, calculateMagnusForce, Vec3.cross, Vec3.zero, Vec3.add,
      Vec3.multiplyScalar, Vec3.divideScalar, BALL_MASS]
    norm_num
  have h2 : stepV1 Vec3.zero 1
        ⟨[⟨0, 100, 0⟩], ⟨0, 100 - 9.81, 0⟩, ⟨0, -9.81, 0⟩, ⟨0, -9.81 * 0.057, 0⟩⟩
      = ⟨[⟨0, 100, 0⟩, ⟨0, 100 - 9.81, 0⟩],
         ⟨0, 100 - 9.81 - (9.81 + 9.81 * 0.057), 0⟩,
         ⟨0, -(9.81 + 9.81 * 0.057), 0⟩,
         ⟨0, -(9.81 * 0.057 * 0.057), 0⟩⟩ := by
    simp only [stepV1, calculateMagnusForce, Vec3.cross, Vec3.zero, Vec3.add,
      Vec3.multiplyScalar, Vec3.divideScalar, BALL_MASS]
    norm_num
  have hrun : predictLoopV1 Vec3.zero 1 2 ⟨[], ⟨0, 100, 0⟩, Vec3.zero, ⟨0, -9.81, 0⟩⟩
      = ⟨[⟨0, 100, 0⟩, ⟨0, 100 - 9.81, 0⟩],
         ⟨0, 100 - 9.81 - (9.81 + 9.81 * 0.057), 0⟩,
         ⟨0, -(9.81 + 9.81 * 0.057), 0⟩,
         ⟨0, -(9.81 * 0.057 * 0.057), 0⟩⟩ := by
    show (let t := stepV1 Vec3.zero 1 ⟨[], ⟨0, 100, 0⟩, Vec3.zero, ⟨0, -9.81, 0⟩⟩
          if t.pos.y < BALL_RADIUS then t else predictLoopV1 Vec3.zero 1 1 t) = _
    rw [h1]
    rw [if_neg (by norm_num [BALL_RADIUS])]
    show (let t := stepV1 Vec3.zero 1
            ⟨[⟨0, 100, 0⟩], ⟨0, 100 - 9.81, 0⟩, ⟨0, -9.81, 0⟩, ⟨0, -9.81 * 0.057, 0⟩⟩
          if t.pos.y < BALL_RADIUS then t else predictLoopV1 Vec3.zero 1 0 t) = _
    rw [h2]
    rw [if_neg (by norm_num [BALL_RADIUS])]
    rfl
  rw [hrun]
  refine ⟨rfl, rfl, by norm_num⟩

/-- Angle bookkeeping for the forehand scenario: the face/swing-path angle
difference of `-5°` and `20°` is `-(25π/180)` radians. -/
theorem forehand_angle_diff :
    degToRad (-5) - degToRad 20 = -(25 * Real.pi / 180) := by
  simp only [degToRad]
  ring

/-- Angle bookkeeping for the forehand scenario: the launch angle is
`10π/180` radians. -/
theorem forehand_launch_angle :
    degToRad 20 + (degToRad (-5) - degToRad 20) * 0.4 = 10 * Real.pi / 180 := by
  simp only [degToRad]
  ring

/-- The spin rate of the forehand scenario is strictly negative. -/
theorem forehand_rpm_neg : (calculateImpact 25 (-5) 20 0.1).rpm < 0 := by
  show 25 * Real.sin (degToRad (-5) - degToRad 20) * 500 * (1 - 0.1 * 0.3) < 0
  rw [forehand_angle_diff, Real.sin_neg]
  have hπ := Real.pi_pos
  have hsin25 : 0 < Real.sin (25 * Real.pi / 180) :=
    Real.sin_pos_of_pos_of_lt_pi (by positivity) (by nlinarith)
  nlinarith

/-- The vertical exit-velocity component of the forehand scenario is
strictly positive. -/
theorem forehand_vy_pos : 0 < (calculateImpact 25 (-5) 20 0.1).velocity.y := by
  show 0 < 25 * (1 + 0.85 * (1 - 0.1 * 0.5)) * Real.cos (degToRad (-5) - degToRad 20)
      * Real.sin (degToRad 20 + (degToRad (-5) - degToRad 20) * 0.4)
  rw [forehand_launch_angle, forehand_angle_diff, Real.cos_neg]
  have hπ := Real.pi_pos
  have hcos25 : 0 < Real.cos (25 * Real.pi / 180) :=
    Real.cos_pos_of_mem_Ioo ⟨by nlinarith, by nlinarith⟩
  have hsin10 : 0 < Real.sin (10 * Real.pi / 180) :=
    Real.sin_pos_of_pos_of_lt_pi (by positivity) (by nlinarith)
  nlinarith [mul_pos hcos25 hsin10]

/-- C7 counterexample: in the scenario `speed = 25`, `faceAngle = -5°`,
`swingPathAngle = 20°`, `offCenterFactor = 0.1`, the spin rate returned by
`calculateImpact` is not positive, so the claimed conjunction (positive
vertical exit velocity and positive spin rate) fails. -/
theorem impact_forehand_scenario_counterexample :
    ¬ (0 < (calculateImpact 25 (-5) 20 0.1).velocity.y
       ∧ 0 < (calculateImpact 25 (-5) 20 0.1).rpm) := by
  rintro ⟨-, h⟩
  exact absurd h (not_lt.mpr (le_of_lt forehand_rpm_neg))

/-- C7 amended: the forehand scenario launches upward (strictly positive
vertical exit-velocity component) but its spin rate is strictly negative —
under the code's sign convention this topspin-generating swing produces a
negative `rpm`, which the application maps to the topspin axis by scaling
the `(-1, 0, 0)` spin axis. -/
theorem impact_forehand_scenario_amended :
    0 < (calculateImpact 25 (-5) 20 0.1).velocity.y
    ∧ (calculateImpact 25 (-5) 20 0.1).rpm < 0 :=
  ⟨forehand_vy_pos, forehand_rpm_neg⟩

/-- Deformation command emitted by the `TennisBall` collision handler:
shader squish intensity, squish direction, and the scheduled follow-up that
resets the squish after a fixed delay (the source's
`setTimeout(() => uSquish = 0, 100)`). -/
structure CollisionResponse where
  uSquish : ℝ
  uDirection : Vec3
  resetDelayMs : Nat
  resetSquishTo : ℝ

/-- The `onCollide` handler of `TennisBall.tsx`: whenever the shader
material is available it sets `uSquish = min(|impactVelocity| * 0.05, 0.4)`
and `uDirection = contactNormal`, and schedules a single reset of
`uSquish` to `0` after 100 ms; there is no branch on the impact speed. -/
def tennisBallOnCollide (materialPresent : Bool) (impactVelocity : ℝ)
    (contactNormal : Vec3) : Option CollisionResponse :=
  if materialPresent then
    some ⟨min (|impactVelocity| * 0.05) 0.4, contactNormal, 100, 0⟩
  else none

/-- C9 counterexample: the `TennisBall` collision handler has no minimum
impact-speed threshold — no positive threshold exists below which it stays
silent, since it emits a deformation command even at impact speed `0`. -/
theorem collision_no_threshold_counterexample :
    ¬ ∃ t : ℝ, 0 < t ∧ ∀ (v : ℝ) (n : Vec3),
        (tennisBallOnCollide true v n).isSome → t < |v| := by
  rintro ⟨t, ht, hall⟩
  have h := hall 0 ⟨0, 1, 0⟩ (by simp [tennisBallOnCollide])
  simp only [abs_zero] at h
  exact absurd ht (not_lt.mpr (le_of_lt h))

/-- C9 amended: on every contact event (whenever the shader material is
available) the handler emits a deformation command regardless of impact
speed, with intensity exactly `clamp(|impactSpeed| * 0.05, 0, 0.4)`,
direction equal to the contact normal, and the deformation reset to exactly
zero by a single command delayed 100 ms, not by per-frame decay. -/
theorem collision_response_clamped_and_delayed_reset (v : ℝ) (n : Vec3) :
    tennisBallOnCollide true v n
      = some ⟨max 0 (min (|v| * 0.05) 0.4), n, 100, 0⟩ := by
  have hmax : max 0 (min (|v| * 0.05) 0.4) = min (|v| * 0.05) 0.4 :=
    max_eq_right (le_min (by positivity) (by norm_num))
  rw [hmax]
  rfl
